import Mathlib

/-!
# Verification of the dealmaker 12-month contract simulation

Shallow embedding of `simulate_contract` from `src/dealmaker.py`.

Numbers are modelled by `ℚ` (the Python code mixes ints and floats; rationals
give the exact arithmetic the formulas denote).  Python's `int(...)` conversion
(truncation toward zero) is `pyInt`, and Python's banker's rounding
`round(x, nd)` is `pyRound`.  The simulation itself is a fold of a per-month
step over the zipped delivery/production plans; reading `plan[month-1]` for
months 1..12 succeeds exactly when each plan has at least 12 entries, which is
captured by `takePlan` returning `none` otherwise (mirroring the `IndexError`
a short plan raises in Python).  The final `SimResult` records, besides the
returned period records and KPI dictionary, the values of the function's
accumulator locals, so theorems can speak about them directly.
-/

namespace Dealmaker

/-- Python `int(q)`: truncation toward zero. -/
def pyInt (q : ℚ) : ℤ := if 0 ≤ q then ⌊q⌋ else ⌈q⌉

/-- Round a rational to the nearest integer, ties to even (Python `round`). -/
def roundHalfEven (s : ℚ) : ℤ :=
  let f := ⌊s⌋
  let r := s - f
  if r < 1/2 then f
  else if 1/2 < r then f + 1
  else if Even f then f else f + 1

/-- Python `round(q, nd)`: round half-to-even at `nd` decimal digits. -/
def pyRound (q : ℚ) (nd : ℕ) : ℚ := (roundHalfEven (q * 10 ^ nd) : ℚ) / 10 ^ nd

/-- The `"Next month"` label of `doa_replacement_mode`. -/
def nextMonthLabel : String := "Next month"

/-- The `"Next delivery"` label of `doa_replacement_mode`. -/
def nextDeliveryLabel : String := "Next delivery"

/-- The keyword arguments of `simulate_contract` (src/dealmaker.py lines 6-29). -/
structure ContractInputs where
  list_price : ℚ
  discount : ℚ
  monthly_oled_delivery_plan : List ℚ
  initial_component_inventory : ℚ
  monthly_production_plan : List ℚ
  payment_terms_days : ℤ
  doa_rate : ℚ
  doa_replacement_mode : String
  customization : Bool
  technical_support_weeks : ℚ
  ecolowrap : Bool
  cost_of_capital : ℚ
  transport_cost_per_unit_from_cda : ℚ
  transport_cost_per_unit_to_cda : ℚ
  insurance_cost_per_unit : ℚ
  field_failure_rate : ℚ
  final_product_price : ℚ
  monthly_demand_units : ℚ
  prod_cost_per_unit_excl_oled : ℚ
  initial_final_inventory : ℚ
  neginfo_cost : ℚ

/-- One element of `records` (the per-month dict, src/dealmaker.py lines 119-146). -/
structure PeriodRecord where
  month : ℕ
  oleds_bought : ℚ
  field_failures : ℤ
  doa_units : ℤ
  replacements_arrive : ℤ
  comp_start_inv : ℚ
  comp_end_inv : ℚ
  final_start_inv : ℚ
  final_end_inv : ℚ
  volume_from_cda_due_doa : ℤ
  total_volume_from_cda : ℚ
  transport_from_cda_cost : ℚ
  volume_to_cda : ℤ
  transport_to_cda_cost : ℚ
  insurance_cost : ℚ
  demand : ℚ
  sales_units : ℚ
  sales_revenue : ℚ
  production : ℚ

/-- The loop-carried locals of `simulate_contract` (lines 38-55). -/
structure LoopState where
  comp_inv : ℚ
  final_inv : ℚ
  prev_month_doa : ℤ
  total_oleds_purchased : ℚ
  total_units_produced : ℚ
  total_units_sold : ℚ
  inventory_comp_snapshots : List ℚ
  inventory_final_snapshots : List ℚ
  total_transport_from_cda_cost : ℚ
  total_transport_to_cda_cost : ℚ
  total_insurance_cost : ℚ
  total_sales_revenue : ℚ
  total_prod_cost_excl_oled : ℚ
  records : List PeriodRecord

/-- One iteration of the `for month in range(1, 13)` loop (lines 57-146):
given this month's delivery and production plan entries and the carried
state, produce the updated state with the month's record appended. -/
def stepMonth (inp : ContractInputs) (month : ℕ) (delivered production : ℚ)
    (s : LoopState) : LoopState :=
  let comp_start_inv := s.comp_inv
  let received_from_cda := delivered
  let doa_units : ℤ := pyInt (received_from_cda * inp.doa_rate)
  let replacements_arrive : ℤ :=
    if inp.doa_replacement_mode = nextMonthLabel ∨
        inp.doa_replacement_mode = nextDeliveryLabel then
      s.prev_month_doa
    else 0
  let usable_now : ℚ := received_from_cda - (doa_units : ℚ) + (replacements_arrive : ℚ)
  let comp_end_inv := comp_start_inv + usable_now - production
  let final_start_inv := s.final_inv
  let available_for_sale := final_start_inv + production
  let demand := inp.monthly_demand_units
  let sales_units := min available_for_sale demand
  let final_end_inv := available_for_sale - sales_units
  let field_failures : ℤ := pyInt (sales_units * inp.field_failure_rate)
  let volume_from_cda_due_doa := replacements_arrive
  let total_volume_from_cda : ℚ := received_from_cda + (volume_from_cda_due_doa : ℚ)
  let transport_from_cda_cost := total_volume_from_cda * inp.transport_cost_per_unit_from_cda
  let volume_to_cda := field_failures
  let transport_to_cda_cost := (volume_to_cda : ℚ) * inp.transport_cost_per_unit_to_cda
  let total_volume_for_insurance := total_volume_from_cda + (volume_to_cda : ℚ)
  let insurance_cost := total_volume_for_insurance * inp.insurance_cost_per_unit
  let sales_revenue := sales_units * inp.final_product_price
  let prod_cost_excl_oled := production * inp.prod_cost_per_unit_excl_oled
  { comp_inv := comp_end_inv
    final_inv := final_end_inv
    prev_month_doa := doa_units
    total_oleds_purchased := s.total_oleds_purchased + received_from_cda
    total_units_produced := s.total_units_produced + production
    total_units_sold := s.total_units_sold + sales_units
    inventory_comp_snapshots := s.inventory_comp_snapshots ++ [comp_start_inv]
    inventory_final_snapshots := s.inventory_final_snapshots ++ [final_start_inv]
    total_transport_from_cda_cost := s.total_transport_from_cda_cost + transport_from_cda_cost
    total_transport_to_cda_cost := s.total_transport_to_cda_cost + transport_to_cda_cost
    total_insurance_cost := s.total_insurance_cost + insurance_cost
    total_sales_revenue := s.total_sales_revenue + sales_revenue
    total_prod_cost_excl_oled := s.total_prod_cost_excl_oled + prod_cost_excl_oled
    records := s.records ++
      [{ month := month
         oleds_bought := received_from_cda
         field_failures := field_failures
         doa_units := doa_units
         replacements_arrive := replacements_arrive
         comp_start_inv := comp_start_inv
         comp_end_inv := comp_end_inv
         final_start_inv := final_start_inv
         final_end_inv := final_end_inv
         volume_from_cda_due_doa := volume_from_cda_due_doa
         total_volume_from_cda := total_volume_from_cda
         transport_from_cda_cost := transport_from_cda_cost
         volume_to_cda := volume_to_cda
         transport_to_cda_cost := transport_to_cda_cost
         insurance_cost := insurance_cost
         demand := demand
         sales_units := sales_units
         sales_revenue := sales_revenue
         production := production }] }

/-- Run the monthly loop over the zipped (delivery, production) plan entries,
`month` counting up from 1. -/
def runMonths (inp : ContractInputs) : ℕ → List (ℚ × ℚ) → LoopState → LoopState
  | _, [], s => s
  | month, (d, p) :: rest, s => runMonths inp (month + 1) rest (stepMonth inp month d p s)

/-- Reading `plan[0] .. plan[n-1]` in Python succeeds exactly when the list has
at least `n` entries (otherwise the loop dies with an `IndexError`); in that
case the first `n` entries are used and any extras are ignored. -/
def takePlan (n : ℕ) (l : List ℚ) : Option (List ℚ) :=
  if n ≤ l.length then some (l.take n) else none

/-- A value of the Python KPI dict: a float (exact rational here), an int, or a bool. -/
inductive KpiValue where
  | num (q : ℚ)
  | int (n : ℤ)
  | bool (b : Bool)

/-- The result of a run: the returned `records` and `kpis` (lines 198-199),
together with the final values of the function's locals (all defined at
lines 36-173 of src/dealmaker.py), exposed so theorems can refer to them. -/
structure SimResult where
  records : List PeriodRecord
  kpis : List (String × KpiValue)
  final_price_component : ℚ
  total_oleds_purchased : ℚ
  total_units_produced : ℚ
  total_units_sold : ℚ
  inventory_comp_snapshots : List ℚ
  inventory_final_snapshots : List ℚ
  avg_comp_inv : ℚ
  avg_final_inv : ℚ
  component_purchase_cost : ℚ
  inventory_comp_capital_cost : ℚ
  inventory_final_capital_cost : ℚ
  ecolowrap_subsidy : ℚ
  total_inventory_cost : ℚ
  total_transport_from_cda_cost : ℚ
  total_transport_to_cda_cost : ℚ
  total_insurance_cost : ℚ
  total_sales_revenue : ℚ
  total_prod_cost_excl_oled : ℚ
  total_costs : ℚ
  negotiation_profit : ℚ

/-- KPI dict key for payment terms (pass-through, line 192). -/
def paymentTermsKey : String := "Payment terms (days)"

/-- KPI dict key for customization (pass-through, line 193). -/
def customizationKey : String := "Customization included"

/-- KPI dict key for technical support (pass-through, line 194). -/
def techSupportKey : String := "Technical support (weeks)"

/-- The initial values of the loop-carried locals (lines 38-55). -/
def initState (inp : ContractInputs) : LoopState :=
  { comp_inv := inp.initial_component_inventory
    final_inv := inp.initial_final_inventory
    prev_month_doa := 0
    total_oleds_purchased := 0
    total_units_produced := 0
    total_units_sold := 0
    inventory_comp_snapshots := []
    inventory_final_snapshots := []
    total_transport_from_cda_cost := 0
    total_transport_to_cda_cost := 0
    total_insurance_cost := 0
    total_sales_revenue := 0
    total_prod_cost_excl_oled := 0
    records := [] }

/-- The body of `simulate_contract` once the 12 plan entries `ds` (deliveries)
and `ps` (production) have been read off: run the monthly loop from the
initial state and finalise (lines 36-199). -/
def finishRun (inp : ContractInputs) (ds ps : List ℚ) : SimResult :=
    let final_price_component := inp.list_price * (1 - inp.discount / 100)
    let s := runMonths inp 1 (ds.zip ps) (initState inp)
    let inventory_comp_snapshots := s.inventory_comp_snapshots ++ [s.comp_inv]
    let inventory_final_snapshots := s.inventory_final_snapshots ++ [s.final_inv]
    let avg_comp_inv := inventory_comp_snapshots.sum / (inventory_comp_snapshots.length : ℚ)
    let avg_final_inv := inventory_final_snapshots.sum / (inventory_final_snapshots.length : ℚ)
    let component_purchase_cost := s.total_oleds_purchased * final_price_component
    let inventory_comp_capital_cost := avg_comp_inv * final_price_component * inp.cost_of_capital
    let inventory_final_capital_cost :=
      avg_final_inv * inp.prod_cost_per_unit_excl_oled * inp.cost_of_capital
    let ecolowrap_subsidy : ℚ := if inp.ecolowrap then 200000 else 0
    let total_inventory_cost := inventory_comp_capital_cost + inventory_final_capital_cost
    let total_costs :=
      component_purchase_cost
        + s.total_prod_cost_excl_oled
        + s.total_transport_from_cda_cost
        + s.total_transport_to_cda_cost
        + s.total_insurance_cost
        + total_inventory_cost
        + inp.neginfo_cost
        - ecolowrap_subsidy
    let negotiation_profit := s.total_sales_revenue - total_costs
    let kpis : List (String × KpiValue) :=
      [("Component final price (€/unit)", .num (pyRound final_price_component 2)),
       ("Total OLEDs purchased", .int (pyInt s.total_oleds_purchased)),
       ("Total units produced", .int (pyInt s.total_units_produced)),
       ("Total units sold", .int (pyInt s.total_units_sold)),
       ("Average component inventory (units)", .num (pyRound avg_comp_inv 1)),
       ("Average final inventory (units)", .num (pyRound avg_final_inv 1)),
       ("Component purchase cost (€/year)", .num (pyRound component_purchase_cost 0)),
       ("Production cost excl. OLEDs (€/year)", .num (pyRound s.total_prod_cost_excl_oled 0)),
       ("Transport from CDA (€/year)", .num (pyRound s.total_transport_from_cda_cost 0)),
       ("Transport to CDA (€/year)", .num (pyRound s.total_transport_to_cda_cost 0)),
       ("Insurance cost (€/year)", .num (pyRound s.total_insurance_cost 0)),
       ("Inventory capital cost (€/year)", .num (pyRound total_inventory_cost 0)),
       ("Ecolowrap subsidy (€/year)", .int (if inp.ecolowrap then 200000 else 0)),
       ("NEGINFO cost (€/year)", .num inp.neginfo_cost),
       ("Total sales revenue (€/year)", .num (pyRound s.total_sales_revenue 0)),
       ("Profit from negotiation (€/year)", .num (pyRound negotiation_profit 0)),
       (paymentTermsKey, .int inp.payment_terms_days),
       (customizationKey, .bool inp.customization),
       (techSupportKey, .num inp.technical_support_weeks),
       ("Ecolowrap", .bool inp.ecolowrap)]
    { records := s.records
      kpis := kpis
      final_price_component := final_price_component
      total_oleds_purchased := s.total_oleds_purchased
      total_units_produced := s.total_units_produced
      total_units_sold := s.total_units_sold
      inventory_comp_snapshots := inventory_comp_snapshots
      inventory_final_snapshots := inventory_final_snapshots
      avg_comp_inv := avg_comp_inv
      avg_final_inv := avg_final_inv
      component_purchase_cost := component_purchase_cost
      inventory_comp_capital_cost := inventory_comp_capital_cost
      inventory_final_capital_cost := inventory_final_capital_cost
      ecolowrap_subsidy := ecolowrap_subsidy
      total_inventory_cost := total_inventory_cost
      total_transport_from_cda_cost := s.total_transport_from_cda_cost
      total_transport_to_cda_cost := s.total_transport_to_cda_cost
      total_insurance_cost := s.total_insurance_cost
      total_sales_revenue := s.total_sales_revenue
      total_prod_cost_excl_oled := s.total_prod_cost_excl_oled
      total_costs := total_costs
      negotiation_profit := negotiation_profit }

/-- `simulate_contract` (src/dealmaker.py lines 6-199).  Returns `none` exactly
when one of the two plans has fewer than 12 entries (the `IndexError` case);
otherwise runs the 12-month loop on the first 12 entries of each plan and
finalises the KPI dictionary. -/
def simulate_contract (inp : ContractInputs) : Option SimResult :=
  match takePlan 12 inp.monthly_oled_delivery_plan,
      takePlan 12 inp.monthly_production_plan with
  | some ds, some ps => some (finishRun inp ds ps)
  | _, _ => none

/-- The three KPI entries that are verbatim copies of service-term inputs. -/
def passThroughKeys : List String := [paymentTermsKey, customizationKey, techSupportKey]

/-- The KPI entries that are actually computed by the simulation (everything
except the three verbatim service-term pass-throughs). -/
def computedKpis (r : SimResult) : List (String × KpiValue) :=
  r.kpis.filter fun kv => !passThroughKeys.contains kv.1

/-- Extract the run of an input known to have full-length plans. -/
def runOf (inp : ContractInputs) (h : (simulate_contract inp).isSome) : SimResult :=
  (simulate_contract inp).get h

/-- Replace only the three service-term inputs. -/
def withServiceTerms (inp : ContractInputs) (p : ℤ) (c : Bool) (t : ℚ) : ContractInputs :=
  { inp with
    payment_terms_days := p
    customization := c
    technical_support_weeks := t }

/-- A neutral, fully valid input: zero prices and rates, twelve deliveries of
10 units, a production plan spending 50 components in month 1 against only 10
usable ones (the spec's shortfall Scenario C), zero demand. -/
def exShortfall : ContractInputs :=
  { list_price := 0
    discount := 0
    monthly_oled_delivery_plan := [10, 10, 10, 10, 10, 10, 10, 10, 10, 10, 10, 10]
    initial_component_inventory := 0
    monthly_production_plan := [50, 0, 0, 0, 0, 0, 0, 0, 0, 0, 0, 0]
    payment_terms_days := 0
    doa_rate := 0
    doa_replacement_mode := nextMonthLabel
    customization := true
    technical_support_weeks := 0
    ecolowrap := false
    cost_of_capital := 0
    transport_cost_per_unit_from_cda := 0
    transport_cost_per_unit_to_cda := 0
    insurance_cost_per_unit := 0
    field_failure_rate := 0
    final_product_price := 0
    monthly_demand_units := 0
    prod_cost_per_unit_excl_oled := 0
    initial_final_inventory := 0
    neginfo_cost := 0 }

/-- A thoroughly invalid input: negative list price, DOA rate 2 (outside
[0,1]), negative demand, negative lump-sum cost, and a 13-entry delivery
plan.  Used to show `simulate_contract` computes a result from it anyway. -/
def exInvalid : ContractInputs :=
  { list_price := -3
    discount := 0
    monthly_oled_delivery_plan := [10, 10, 10, 10, 10, 10, 10, 10, 10, 10, 10, 10, 10]
    initial_component_inventory := 0
    monthly_production_plan := [0, 0, 0, 0, 0, 0, 0, 0, 0, 0, 0, 0]
    payment_terms_days := 0
    doa_rate := 2
    doa_replacement_mode := nextMonthLabel
    customization := false
    technical_support_weeks := 0
    ecolowrap := false
    cost_of_capital := 0
    transport_cost_per_unit_from_cda := 0
    transport_cost_per_unit_to_cda := 0
    insurance_cost_per_unit := 0
    field_failure_rate := 0
    final_product_price := 1
    monthly_demand_units := -5
    prod_cost_per_unit_excl_oled := 0
    initial_final_inventory := 0
    neginfo_cost := -100 }

/-- Like `exShortfall` but with an unrecognised DOA replacement mode label, a
positive DOA rate and nonzero deliveries, to exercise the mode branch. -/
def exModeNever : ContractInputs :=
  { exShortfall with
    monthly_oled_delivery_plan := [100, 100, 100, 100, 100, 100, 100, 100, 100, 100, 100, 100]
    monthly_production_plan := [0, 0, 0, 0, 0, 0, 0, 0, 0, 0, 0, 0]
    doa_rate := 1/2
    doa_replacement_mode := "Never" }

/-- The spec's Scenario B: finished inventory start 0, production 100 per
month, demand 50. -/
def exScenarioB : ContractInputs :=
  { exShortfall with
    monthly_oled_delivery_plan := [0, 0, 0, 0, 0, 0, 0, 0, 0, 0, 0, 0]
    monthly_production_plan := [100, 100, 100, 100, 100, 100, 100, 100, 100, 100, 100, 100]
    monthly_demand_units := 50 }

/-- A run whose two inventory streams are constant (no deliveries, no
production, no demand): component inventory stays 500, finished stays 300. -/
def exConstInv : ContractInputs :=
  { exShortfall with
    monthly_oled_delivery_plan := [0, 0, 0, 0, 0, 0, 0, 0, 0, 0, 0, 0]
    monthly_production_plan := [0, 0, 0, 0, 0, 0, 0, 0, 0, 0, 0, 0]
    initial_component_inventory := 500
    initial_final_inventory := 300 }

/-- The spec's Scenario A constant-flow deal: list price 179, no discount,
6000 OLEDs delivered per month, production 6000 then 5900×11, DOA 1.75%,
field failure 1.85%, demand 6029, the class simulator's cost parameters. -/
def exMain : ContractInputs :=
  { list_price := 179
    discount := 0
    monthly_oled_delivery_plan :=
      [6000, 6000, 6000, 6000, 6000, 6000, 6000, 6000, 6000, 6000, 6000, 6000]
    initial_component_inventory := 500
    monthly_production_plan :=
      [6000, 5900, 5900, 5900, 5900, 5900, 5900, 5900, 5900, 5900, 5900, 5900]
    payment_terms_days := 60
    doa_rate := 7/400
    doa_replacement_mode := nextMonthLabel
    customization := true
    technical_support_weeks := 3
    ecolowrap := true
    cost_of_capital := 1/10
    transport_cost_per_unit_from_cda := 131/10
    transport_cost_per_unit_to_cda := 0
    insurance_cost_per_unit := 267/100
    field_failure_rate := 37/2000
    final_product_price := 678
    monthly_demand_units := 6029
    prod_cost_per_unit_excl_oled := 1287/5
    initial_final_inventory := 500
    neginfo_cost := 0 }

/-- `exMain` with different service terms only (payment 30 days, no
customization, 7 support weeks). -/
def exMainSvc : ContractInputs :=
  { exMain with
    payment_terms_days := 30
    customization := false
    technical_support_weeks := 7 }

/-- Month 1 of `exMain`, written out: 6000 delivered, 105 DOA, no
replacements yet, component inventory 500 → 395, finished 500 → 471 with
6029 sold, 111 field failures. -/
def recMain1 : PeriodRecord :=
  { month := 1
    oleds_bought := 6000
    field_failures := 111
    doa_units := 105
    replacements_arrive := 0
    comp_start_inv := 500
    comp_end_inv := 395
    final_start_inv := 500
    final_end_inv := 471
    volume_from_cda_due_doa := 0
    total_volume_from_cda := 6000
    transport_from_cda_cost := 78600
    volume_to_cda := 111
    transport_to_cda_cost := 0
    insurance_cost := 1631637/100
    demand := 6029
    sales_units := 6029
    sales_revenue := 4087662
    production := 6000 }

/-- Month 2 of `exMain`: the 105 month-1 DOA units arrive as replacements. -/
def recMain2 : PeriodRecord :=
  { month := 2
    oleds_bought := 6000
    field_failures := 111
    doa_units := 105
    replacements_arrive := 105
    comp_start_inv := 395
    comp_end_inv := 495
    final_start_inv := 471
    final_end_inv := 342
    volume_from_cda_due_doa := 105
    total_volume_from_cda := 6105
    transport_from_cda_cost := 159951/2
    volume_to_cda := 111
    transport_to_cda_cost := 0
    insurance_cost := 414918/25
    demand := 6029
    sales_units := 6029
    sales_revenue := 4087662
    production := 5900 }

/-- Month 1 of `exScenarioB`: 100 produced, 50 sold, 50 left in stock. -/
def recB1 : PeriodRecord :=
  { month := 1
    oleds_bought := 0
    field_failures := 0
    doa_units := 0
    replacements_arrive := 0
    comp_start_inv := 0
    comp_end_inv := -100
    final_start_inv := 0
    final_end_inv := 50
    volume_from_cda_due_doa := 0
    total_volume_from_cda := 0
    transport_from_cda_cost := 0
    volume_to_cda := 0
    transport_to_cda_cost := 0
    insurance_cost := 0
    demand := 50
    sales_units := 50
    sales_revenue := 0
    production := 100 }

/-- The 20 keys of the KPI dictionary, in construction order. -/
def kpiKeyList : List String :=
  ["Component final price (€/unit)", "Total OLEDs purchased", "Total units produced",
    "Total units sold", "Average component inventory (units)",
    "Average final inventory (units)", "Component purchase cost (€/year)",
    "Production cost excl. OLEDs (€/year)", "Transport from CDA (€/year)",
    "Transport to CDA (€/year)", "Insurance cost (€/year)",
    "Inventory capital cost (€/year)", "Ecolowrap subsidy (€/year)",
    "NEGINFO cost (€/year)", "Total sales revenue (€/year)",
    "Profit from negotiation (€/year)", "Payment terms (days)",
    "Customization included", "Technical support (weeks)", "Ecolowrap"]

/-- The DOA-lag invariant carried by the loop when the replacement-mode label
is one of the two recognised ones: the first record received no replacements,
each later record's replacements are the previous record's DOA units, and the
pending count is the last record's DOA units. -/
def LagInv (s : LoopState) : Prop :=
  (∀ rec, s.records[0]? = some rec → rec.replacements_arrive = 0) ∧
    (∀ i rec1 rec2, s.records[i]? = some rec1 → s.records[i + 1]? = some rec2 →
      rec2.replacements_arrive = rec1.doa_units) ∧
    s.prev_month_doa = ((s.records.getLast?).map PeriodRecord.doa_units).getD 0

/-- The completed run on `exMain` (both plans have 12 entries). -/
def rMain : SimResult :=
  runOf exMain (by simp [simulate_contract, takePlan, exMain])

/-- The completed run on `exMainSvc`. -/
def rSvc : SimResult :=
  runOf exMainSvc (by simp [simulate_contract, takePlan, exMainSvc, exMain])

/-- The completed run on `exScenarioB`. -/
def rB : SimResult :=
  runOf exScenarioB (by simp [simulate_contract, takePlan, exScenarioB, exShortfall])

/-- The completed run on `exShortfall`. -/
def rShort : SimResult :=
  runOf exShortfall (by simp [simulate_contract, takePlan, exShortfall])

/-- The completed run on `exConstInv`. -/
def rConst : SimResult :=
  runOf exConstInv (by simp [simulate_contract, takePlan, exConstInv, exShortfall])

/-! ## Basic facts about the embedding -/

theorem pyInt_of_nonneg {q : ℚ} (h : 0 ≤ q) : pyInt q = ⌊q⌋ := if_pos h

theorem takePlan_eq_some {n : ℕ} {l ds : List ℚ} :
    takePlan n l = some ds ↔ n ≤ l.length ∧ ds = l.take n := by
  unfold takePlan
  split <;> simp_all [eq_comm]

theorem takePlan_length {n : ℕ} {l ds : List ℚ} (h : takePlan n l = some ds) :
    ds.length = n := by
  obtain ⟨hle, rfl⟩ := takePlan_eq_some.mp h
  simp [hle]

theorem simulate_contract_eq_some {inp : ContractInputs} {r : SimResult} :
    simulate_contract inp = some r ↔
      ∃ ds ps, takePlan 12 inp.monthly_oled_delivery_plan = some ds ∧
        takePlan 12 inp.monthly_production_plan = some ps ∧ r = finishRun inp ds ps := by
  unfold simulate_contract
  rcases h1 : takePlan 12 inp.monthly_oled_delivery_plan with _ | ds <;>
    rcases h2 : takePlan 12 inp.monthly_production_plan with _ | ps <;>
      simp [eq_comm]

theorem finishRun_records (inp : ContractInputs) (ds ps : List ℚ) :
    (finishRun inp ds ps).records = (runMonths inp 1 (ds.zip ps) (initState inp)).records := rfl

/-- Every record produced by the loop either was already in the state or
satisfies any property `P` that one loop step establishes for the record it
appends. -/
theorem runMonths_records_mem (inp : ContractInputs) (P : PeriodRecord → Prop)
    (hstep : ∀ m d p s rec, rec ∈ (stepMonth inp m d p s).records → rec ∈ s.records ∨ P rec) :
    ∀ (pairs : List (ℚ × ℚ)) (m : ℕ) (s : LoopState) (rec : PeriodRecord),
      rec ∈ (runMonths inp m pairs s).records → rec ∈ s.records ∨ P rec := by
  intro pairs
  induction pairs with
  | nil =>
    intro m s rec h
    exact Or.inl (by simpa [runMonths] using h)
  | cons dp rest ih =>
    intro m s rec h
    obtain ⟨d, p⟩ := dp
    rcases ih (m + 1) (stepMonth inp m d p s) rec (by simpa [runMonths] using h) with h' | hP
    · exact hstep m d p s rec h'
    · exact Or.inr hP

/-- Lift a per-step record property to all records of a completed run. -/
theorem simulate_records_mem {inp : ContractInputs} {r : SimResult}
    (h : simulate_contract inp = some r) (P : PeriodRecord → Prop)
    (hstep : ∀ m d p s rec, rec ∈ (stepMonth inp m d p s).records → rec ∈ s.records ∨ P rec) :
    ∀ rec ∈ r.records, P rec := by
  obtain ⟨ds, ps, _, _, rfl⟩ := simulate_contract_eq_some.mp h
  intro rec hrec
  rw [finishRun_records] at hrec
  rcases runMonths_records_mem inp P hstep _ 1 (initState inp) rec hrec with h0 | hP
  · simp [initState] at h0
  · exact hP

/-- Each month's record satisfies the sales-cap relations by construction. -/
theorem sales_cap_step (inp : ContractInputs) :
    ∀ m d p s rec, rec ∈ (stepMonth inp m d p s).records → rec ∈ s.records ∨
      (rec.sales_units = min (rec.final_start_inv + rec.production) rec.demand ∧
        rec.sales_units ≤ rec.final_start_inv + rec.production ∧
        rec.final_end_inv = rec.final_start_inv + rec.production - rec.sales_units ∧
        0 ≤ rec.final_end_inv) := by
  intro m d p s rec h
  simp only [stepMonth, List.mem_append, List.mem_singleton] at h
  rcases h with h | rfl
  · exact Or.inl h
  · right
    refine ⟨rfl, min_le_left _ _, rfl, ?_⟩
    simp [sub_nonneg]

/-- C6 (confirmed): for every period of any completed run, `salesUnits` equals
`min(finishedInventoryStart + production, demand)`, never exceeds the units
available for sale, and `finishedInventoryEnd = availableForSale − salesUnits`
is never negative. -/
theorem sales_cap_and_finished_inventory {inp : ContractInputs} {r : SimResult}
    (h : simulate_contract inp = some r) :
    ∀ rec ∈ r.records,
      rec.sales_units = min (rec.final_start_inv + rec.production) rec.demand ∧
        rec.sales_units ≤ rec.final_start_inv + rec.production ∧
        rec.final_end_inv = rec.final_start_inv + rec.production - rec.sales_units ∧
        0 ≤ rec.final_end_inv :=
  simulate_records_mem h _ (sales_cap_step inp)

/-- Each month's record relates its end component inventory to the unclamped
balance by construction. -/
theorem comp_inventory_step (inp : ContractInputs) :
    ∀ m d p s rec, rec ∈ (stepMonth inp m d p s).records → rec ∈ s.records ∨
      rec.comp_end_inv =
        rec.comp_start_inv +
          (rec.oleds_bought - (rec.doa_units : ℚ) + (rec.replacements_arrive : ℚ)) -
          rec.production := by
  intro m d p s rec h
  simp only [stepMonth, List.mem_append, List.mem_singleton] at h
  rcases h with h | rfl
  · exact Or.inl h
  · exact Or.inr rfl

/-- C1 (amended): for every period of a completed run, the end-of-period
component inventory is the plain balance
`start + (delivered − doaUnits + replacementsArriving) − production`, with no
clamping at zero, so it may be negative; the run still completes without
error. -/
theorem component_inventory_end_unclamped {inp : ContractInputs} {r : SimResult}
    (h : simulate_contract inp = some r) :
    ∀ rec ∈ r.records,
      rec.comp_end_inv =
        rec.comp_start_inv +
          (rec.oleds_bought - (rec.doa_units : ℚ) + (rec.replacements_arrive : ℚ)) -
          rec.production :=
  simulate_records_mem h _ (comp_inventory_step inp)

/-- C1 (counterexample): in the spec's shortfall Scenario C (component start 0,
usable components 10, planned production 50) the code's end-of-period component
inventory is −40, not `max(0, 0 + 10 − 50) = 0`, and it is negative. -/
theorem component_inventory_clamp_cx :
    ((simulate_contract exShortfall).bind fun r => r.records[0]?).map
        PeriodRecord.comp_end_inv = some (-40) ∧
      ((-40 : ℚ) < 0) := by
  constructor
  · norm_num [simulate_contract, runMonths, stepMonth, takePlan, pyInt, exShortfall,
      finishRun, initState, nextMonthLabel, nextDeliveryLabel]
  · norm_num

/-- Each month's record computes its DOA and field-failure counts with
Python's `int(...)` truncation by construction. -/
theorem quality_trunc_step (inp : ContractInputs) :
    ∀ m d p s rec, rec ∈ (stepMonth inp m d p s).records → rec ∈ s.records ∨
      (rec.doa_units = pyInt (rec.oleds_bought * inp.doa_rate) ∧
        rec.field_failures = pyInt (rec.sales_units * inp.field_failure_rate)) := by
  intro m d p s rec h
  simp only [stepMonth, List.mem_append, List.mem_singleton] at h
  rcases h with h | rfl
  · exact Or.inl h
  · exact Or.inr ⟨rfl, rfl⟩

/-- C8 (confirmed): for every period, `doaUnits` and `fieldFailures` are the
truncation toward zero of `delivered × doaRate` and
`salesUnits × fieldFailureRate`; on non-negative products the truncation is
the floor. -/
theorem doa_and_field_failure_floor {inp : ContractInputs} {r : SimResult}
    (h : simulate_contract inp = some r) :
    ∀ rec ∈ r.records,
      rec.doa_units = pyInt (rec.oleds_bought * inp.doa_rate) ∧
        rec.field_failures = pyInt (rec.sales_units * inp.field_failure_rate) ∧
        (0 ≤ rec.oleds_bought * inp.doa_rate →
          rec.doa_units = ⌊rec.oleds_bought * inp.doa_rate⌋) ∧
        (0 ≤ rec.sales_units * inp.field_failure_rate →
          rec.field_failures = ⌊rec.sales_units * inp.field_failure_rate⌋) := by
  intro rec hrec
  obtain ⟨h1, h2⟩ := simulate_records_mem h _ (quality_trunc_step inp) rec hrec
  exact ⟨h1, h2, fun hpos => h1.trans (pyInt_of_nonneg hpos),
    fun hpos => h2.trans (pyInt_of_nonneg hpos)⟩

/-- Each month's record computes transport and insurance on the stated volume
bases by construction. -/
theorem cost_bases_step (inp : ContractInputs) :
    ∀ m d p s rec, rec ∈ (stepMonth inp m d p s).records → rec ∈ s.records ∨
      (rec.transport_from_cda_cost =
          (rec.oleds_bought + (rec.replacements_arrive : ℚ)) *
            inp.transport_cost_per_unit_from_cda ∧
        rec.transport_to_cda_cost =
          (rec.field_failures : ℚ) * inp.transport_cost_per_unit_to_cda ∧
        rec.insurance_cost =
          ((rec.oleds_bought + (rec.replacements_arrive : ℚ)) + (rec.field_failures : ℚ)) *
            inp.insurance_cost_per_unit) := by
  intro m d p s rec h
  simp only [stepMonth, List.mem_append, List.mem_singleton] at h
  rcases h with h | rfl
  · exact Or.inl h
  · exact Or.inr ⟨rfl, rfl, rfl⟩

/-- C9 (confirmed): for every period, inbound transport is charged on
`delivered + replacementsArriving`, outbound transport on `fieldFailures`
(all of which are returned), and insurance on
`delivered + replacementsArriving + fieldFailures`. -/
theorem period_cost_bases {inp : ContractInputs} {r : SimResult}
    (h : simulate_contract inp = some r) :
    ∀ rec ∈ r.records,
      rec.transport_from_cda_cost =
          (rec.oleds_bought + (rec.replacements_arrive : ℚ)) *
            inp.transport_cost_per_unit_from_cda ∧
        rec.transport_to_cda_cost =
          (rec.field_failures : ℚ) * inp.transport_cost_per_unit_to_cda ∧
        rec.insurance_cost =
          ((rec.oleds_bought + (rec.replacements_arrive : ℚ)) + (rec.field_failures : ℚ)) *
            inp.insurance_cost_per_unit :=
  simulate_records_mem h _ (cost_bases_step inp)

/-- C2 (amended): `simulate_contract` fails exactly when a plan has fewer than
12 entries; no other input condition is checked. -/
theorem failure_iff_short_plan (inp : ContractInputs) :
    simulate_contract inp = none ↔
      inp.monthly_oled_delivery_plan.length < 12 ∨
        inp.monthly_production_plan.length < 12 := by
  unfold simulate_contract takePlan
  by_cases h1 : 12 ≤ inp.monthly_oled_delivery_plan.length <;>
    by_cases h2 : 12 ≤ inp.monthly_production_plan.length <;>
      simp [h1, h2] <;> omega

/-- C2 (counterexample): on `exInvalid` — negative list price, DOA rate 2,
negative demand, negative lump-sum cost, a 13-entry delivery plan —
`simulate_contract` raises no error and returns a result computed from the
invalid inputs (profit 400, with negative sales of −5 units in month 1). -/
theorem no_boundary_validation_cx :
    (simulate_contract exInvalid).map SimResult.negotiation_profit = some 400 ∧
      ((simulate_contract exInvalid).bind fun r => r.records[0]?).map
          PeriodRecord.sales_units = some (-5) ∧
      exInvalid.doa_rate = 2 ∧
      exInvalid.list_price = -3 ∧
      exInvalid.monthly_demand_units = -5 ∧
      exInvalid.neginfo_cost = -100 ∧
      exInvalid.monthly_oled_delivery_plan.length = 13 := by
  refine ⟨?_, ?_, rfl, rfl, rfl, rfl, rfl⟩ <;>
    norm_num [simulate_contract, runMonths, stepMonth, takePlan, pyInt, exInvalid,
      finishRun, initState, nextMonthLabel, nextDeliveryLabel]

/-- The loop accumulates the sum of the delivered quantities. -/
theorem runMonths_total_oleds (inp : ContractInputs) :
    ∀ (pairs : List (ℚ × ℚ)) (m : ℕ) (s : LoopState),
      (runMonths inp m pairs s).total_oleds_purchased =
        s.total_oleds_purchased + (pairs.map Prod.fst).sum := by
  intro pairs
  induction pairs with
  | nil => intro m s; simp [runMonths]
  | cons dp rest ih =>
    intro m s
    obtain ⟨d, p⟩ := dp
    simp only [runMonths]
    rw [ih]
    simp [stepMonth]
    ring

/-- C3 (confirmed): the yearly total cost of a run decomposes into component
purchases (all delivered units paid at the net component price), production
cost, the two transport lines, insurance, the two inventory capital costs, the
lump-sum adjustment, minus the eco-packaging grant (200000 exactly when the
flag is set); profit is total revenue minus this total.  This engine variant
has no separate fixed-annual-cost input (identically 0). -/
theorem total_cost_decomposition {inp : ContractInputs} {r : SimResult}
    (h : simulate_contract inp = some r) :
    r.total_costs =
        r.component_purchase_cost + r.total_prod_cost_excl_oled +
          r.total_transport_from_cda_cost + r.total_transport_to_cda_cost +
          r.total_insurance_cost +
          (r.inventory_comp_capital_cost + r.inventory_final_capital_cost) +
          inp.neginfo_cost - r.ecolowrap_subsidy ∧
      r.component_purchase_cost = r.total_oleds_purchased * r.final_price_component ∧
      r.final_price_component = inp.list_price * (1 - inp.discount / 100) ∧
      r.total_oleds_purchased = (inp.monthly_oled_delivery_plan.take 12).sum ∧
      r.ecolowrap_subsidy = (if inp.ecolowrap then (200000 : ℚ) else 0) ∧
      r.negotiation_profit = r.total_sales_revenue - r.total_costs := by
  obtain ⟨ds, ps, hds, hps, rfl⟩ := simulate_contract_eq_some.mp h
  obtain ⟨hle, hdsv⟩ := takePlan_eq_some.mp hds
  refine ⟨rfl, rfl, rfl, ?_, rfl, rfl⟩
  show (runMonths inp 1 (ds.zip ps) (initState inp)).total_oleds_purchased =
    (inp.monthly_oled_delivery_plan.take 12).sum
  rw [runMonths_total_oleds,
    List.map_fst_zip ds ps (by simp [takePlan_length hds, takePlan_length hps])]
  simp [initState, hdsv]

/-- The loop appends one record and one snapshot per inventory stream per month. -/
theorem runMonths_lengths (inp : ContractInputs) :
    ∀ (pairs : List (ℚ × ℚ)) (m : ℕ) (s : LoopState),
      (runMonths inp m pairs s).records.length = s.records.length + pairs.length ∧
        (runMonths inp m pairs s).inventory_comp_snapshots.length =
          s.inventory_comp_snapshots.length + pairs.length ∧
        (runMonths inp m pairs s).inventory_final_snapshots.length =
          s.inventory_final_snapshots.length + pairs.length := by
  intro pairs
  induction pairs with
  | nil => intro m s; simp [runMonths]
  | cons dp rest ih =>
    intro m s
    obtain ⟨d, p⟩ := dp
    obtain ⟨i1, i2, i3⟩ := ih (m + 1) (stepMonth inp m d p s)
    refine ⟨?_, ?_, ?_⟩ <;> simp only [runMonths]
    · rw [i1]; simp [stepMonth]; omega
    · rw [i2]; simp [stepMonth]; omega
    · rw [i3]; simp [stepMonth]; omega

/-- The per-month snapshots are exactly the period-start inventories of the
records, in order. -/
theorem runMonths_snapshots_eq (inp : ContractInputs) :
    ∀ (pairs : List (ℚ × ℚ)) (m : ℕ) (s : LoopState),
      s.inventory_comp_snapshots = s.records.map PeriodRecord.comp_start_inv →
      s.inventory_final_snapshots = s.records.map PeriodRecord.final_start_inv →
      (runMonths inp m pairs s).inventory_comp_snapshots =
          (runMonths inp m pairs s).records.map PeriodRecord.comp_start_inv ∧
        (runMonths inp m pairs s).inventory_final_snapshots =
          (runMonths inp m pairs s).records.map PeriodRecord.final_start_inv := by
  intro pairs
  induction pairs with
  | nil => intro m s h1 h2; simp only [runMonths]; exact ⟨h1, h2⟩
  | cons dp rest ih =>
    intro m s h1 h2
    obtain ⟨d, p⟩ := dp
    simp only [runMonths]
    exact ih (m + 1) _ (by simp [stepMonth, h1]) (by simp [stepMonth, h2])

/-- After the loop, the carried inventories equal the last record's end
inventories (when at least one month ran). -/
theorem runMonths_inv_last (inp : ContractInputs) :
    ∀ (pairs : List (ℚ × ℚ)) (m : ℕ) (s : LoopState),
      (∀ rec, s.records.getLast? = some rec →
        s.comp_inv = rec.comp_end_inv ∧ s.final_inv = rec.final_end_inv) →
      ∀ rec, (runMonths inp m pairs s).records.getLast? = some rec →
        (runMonths inp m pairs s).comp_inv = rec.comp_end_inv ∧
          (runMonths inp m pairs s).final_inv = rec.final_end_inv := by
  intro pairs
  induction pairs with
  | nil => intro m s hs; simpa [runMonths] using hs
  | cons dp rest ih =>
    intro m s hs
    obtain ⟨d, p⟩ := dp
    simp only [runMonths]
    refine ih (m + 1) _ ?_
    intro rec hrec
    simp only [stepMonth, List.getLast?_concat, Option.some.injEq] at hrec
    subst hrec
    exact ⟨rfl, rfl⟩

theorem finishRun_comp_snapshots (inp : ContractInputs) (ds ps : List ℚ) :
    (finishRun inp ds ps).inventory_comp_snapshots =
      (runMonths inp 1 (ds.zip ps) (initState inp)).inventory_comp_snapshots ++
        [(runMonths inp 1 (ds.zip ps) (initState inp)).comp_inv] := rfl

theorem finishRun_final_snapshots (inp : ContractInputs) (ds ps : List ℚ) :
    (finishRun inp ds ps).inventory_final_snapshots =
      (runMonths inp 1 (ds.zip ps) (initState inp)).inventory_final_snapshots ++
        [(runMonths inp 1 (ds.zip ps) (initState inp)).final_inv] := rfl

theorem finishRun_avg_comp (inp : ContractInputs) (ds ps : List ℚ) :
    (finishRun inp ds ps).avg_comp_inv =
      (finishRun inp ds ps).inventory_comp_snapshots.sum /
        ((finishRun inp ds ps).inventory_comp_snapshots.length : ℚ) := rfl

theorem finishRun_avg_final (inp : ContractInputs) (ds ps : List ℚ) :
    (finishRun inp ds ps).avg_final_inv =
      (finishRun inp ds ps).inventory_final_snapshots.sum /
        ((finishRun inp ds ps).inventory_final_snapshots.length : ℚ) := rfl

/-- The mean of a constant list is the constant. -/
theorem mean_const {l : List ℚ} {c : ℚ} (hne : l.length ≠ 0) (hc : ∀ x ∈ l, x = c) :
    l.sum / (l.length : ℚ) = c := by
  rw [List.sum_eq_card_nsmul l c hc, nsmul_eq_mul]
  have h0 : (l.length : ℚ) ≠ 0 := Nat.cast_ne_zero.mpr hne
  field_simp

/-- C7 (confirmed): each average inventory is the arithmetic mean of exactly
13 snapshots — the 12 period-start inventories (in order) plus the final
end-of-year inventory — and on a constant snapshot stream the average equals
that constant. -/
theorem average_inventory_13_snapshots {inp : ContractInputs} {r : SimResult}
    (h : simulate_contract inp = some r) :
    r.inventory_comp_snapshots.length = 13 ∧
      r.inventory_final_snapshots.length = 13 ∧
      r.records.length = 12 ∧
      r.inventory_comp_snapshots.dropLast = r.records.map PeriodRecord.comp_start_inv ∧
      r.inventory_final_snapshots.dropLast = r.records.map PeriodRecord.final_start_inv ∧
      (∀ rec, r.records.getLast? = some rec →
        r.inventory_comp_snapshots.getLast? = some rec.comp_end_inv ∧
          r.inventory_final_snapshots.getLast? = some rec.final_end_inv) ∧
      r.avg_comp_inv = r.inventory_comp_snapshots.sum / 13 ∧
      r.avg_final_inv = r.inventory_final_snapshots.sum / 13 ∧
      (∀ c, (∀ x ∈ r.inventory_comp_snapshots, x = c) → r.avg_comp_inv = c) ∧
      (∀ c, (∀ x ∈ r.inventory_final_snapshots, x = c) → r.avg_final_inv = c) := by
  obtain ⟨ds, ps, hds, hps, rfl⟩ := simulate_contract_eq_some.mp h
  have hzip : (ds.zip ps).length = 12 := by
    simp [takePlan_length hds, takePlan_length hps]
  obtain ⟨l1, l2, l3⟩ := runMonths_lengths inp (ds.zip ps) 1 (initState inp)
  obtain ⟨s1, s2⟩ := runMonths_snapshots_eq inp (ds.zip ps) 1 (initState inp)
    (by simp [initState]) (by simp [initState])
  have e1 : (initState inp).records.length = 0 := rfl
  have e2 : (initState inp).inventory_comp_snapshots.length = 0 := rfl
  have e3 : (initState inp).inventory_final_snapshots.length = 0 := rfl
  have hlen1 : (finishRun inp ds ps).inventory_comp_snapshots.length = 13 := by
    rw [finishRun_comp_snapshots]
    simp [l2, hzip, e2]
  have hlen2 : (finishRun inp ds ps).inventory_final_snapshots.length = 13 := by
    rw [finishRun_final_snapshots]
    simp [l3, hzip, e3]
  have hlenr : (finishRun inp ds ps).records.length = 12 := by
    rw [finishRun_records]
    simp [l1, hzip, e1]
  refine ⟨hlen1, hlen2, hlenr, ?_, ?_, ?_, ?_, ?_, ?_, ?_⟩
  · rw [finishRun_comp_snapshots, List.dropLast_concat, finishRun_records, s1]
  · rw [finishRun_final_snapshots, List.dropLast_concat, finishRun_records, s2]
  · intro rec hrec
    rw [finishRun_records] at hrec
    obtain ⟨e1, e2⟩ := runMonths_inv_last inp (ds.zip ps) 1 (initState inp)
      (by intro rec0 h0; simp [initState] at h0) rec hrec
    rw [finishRun_comp_snapshots, finishRun_final_snapshots, List.getLast?_concat,
      List.getLast?_concat, e1, e2]
    exact ⟨rfl, rfl⟩
  · rw [finishRun_avg_comp, hlen1]
    norm_num
  · rw [finishRun_avg_final, hlen2]
    norm_num
  · intro c hc
    rw [finishRun_avg_comp]
    exact mean_const (by rw [hlen1]; omega) hc
  · intro c hc
    rw [finishRun_avg_final]
    exact mean_const (by rw [hlen2]; omega) hc

theorem stepMonth_lagInv {inp : ContractInputs}
    (hmode : inp.doa_replacement_mode = nextMonthLabel ∨
      inp.doa_replacement_mode = nextDeliveryLabel)
    (m : ℕ) (d p : ℚ) (s : LoopState) (hs : LagInv s) :
    LagInv (stepMonth inp m d p s) := by
  obtain ⟨h0, hchain, hlast⟩ := hs
  refine ⟨?_, ?_, ?_⟩
  · intro rec hrec
    simp only [stepMonth] at hrec
    rcases Nat.eq_zero_or_pos s.records.length with hl | hl
    · have hnil : s.records = [] := List.length_eq_zero.mp hl
      rw [hnil] at hrec
      simp only [List.nil_append, List.getElem?_cons_zero, Option.some.injEq] at hrec
      subst hrec
      rw [if_pos hmode, hlast, hnil]
      rfl
    · rw [List.getElem?_append_left hl] at hrec
      exact h0 rec hrec
  · intro i rec1 rec2 h1 h2
    simp only [stepMonth] at h1 h2
    rcases Nat.lt_trichotomy (i + 1) s.records.length with hlt | heq | hgt
    · rw [List.getElem?_append_left hlt] at h2
      rw [List.getElem?_append_left (Nat.lt_of_succ_lt hlt)] at h1
      exact hchain i rec1 rec2 h1 h2
    · rw [List.getElem?_append_right (Nat.le_of_eq heq.symm), heq, Nat.sub_self] at h2
      simp only [List.getElem?_cons_zero, Option.some.injEq] at h2
      subst h2
      have hi : i < s.records.length := by omega
      rw [List.getElem?_append_left hi] at h1
      have hlast1 : s.records.getLast? = some rec1 := by
        rw [List.getLast?_eq_getElem? s.records]
        have : s.records.length - 1 = i := by omega
        rw [this]
        exact h1
      rw [if_pos hmode, hlast, hlast1]
      rfl
    · rw [List.getElem?_append_right (by omega)] at h2
      have : i + 1 - s.records.length ≠ 0 := by omega
      rcases Nat.exists_eq_succ_of_ne_zero this with ⟨k, hk⟩
      rw [hk] at h2
      simp at h2
  · simp only [stepMonth, List.getLast?_concat]
    rfl

theorem runMonths_lagInv {inp : ContractInputs}
    (hmode : inp.doa_replacement_mode = nextMonthLabel ∨
      inp.doa_replacement_mode = nextDeliveryLabel) :
    ∀ (pairs : List (ℚ × ℚ)) (m : ℕ) (s : LoopState),
      LagInv s → LagInv (runMonths inp m pairs s) := by
  intro pairs
  induction pairs with
  | nil => intro m s hs; simpa [runMonths] using hs
  | cons dp rest ih =>
    intro m s hs
    obtain ⟨d, p⟩ := dp
    simp only [runMonths]
    exact ih (m + 1) _ (stepMonth_lagInv hmode m d p s hs)

/-- When the mode label is neither recognised string, the loop gives every
record zero arriving replacements. -/
theorem replacements_zero_step {inp : ContractInputs}
    (hmode : ¬(inp.doa_replacement_mode = nextMonthLabel ∨
      inp.doa_replacement_mode = nextDeliveryLabel)) :
    ∀ m d p s rec, rec ∈ (stepMonth inp m d p s).records → rec ∈ s.records ∨
      rec.replacements_arrive = 0 := by
  intro m d p s rec h
  simp only [stepMonth, List.mem_append, List.mem_singleton] at h
  rcases h with h | rfl
  · exact Or.inl h
  · right
    show (if inp.doa_replacement_mode = nextMonthLabel ∨
        inp.doa_replacement_mode = nextDeliveryLabel then s.prev_month_doa else 0) = 0
    rw [if_neg hmode]

/-- C4 (amended): for the two recognised mode labels ("Next month",
"Next delivery") the replacements arriving in period 1 are 0 and in each later
period equal the previous period's DOA units; for any other label string the
branch in the code disables replacements, so every period receives 0. -/
theorem doa_lag_amended {inp : ContractInputs} {r : SimResult}
    (h : simulate_contract inp = some r) :
    ((inp.doa_replacement_mode = nextMonthLabel ∨
        inp.doa_replacement_mode = nextDeliveryLabel) →
      (∀ rec, r.records[0]? = some rec → rec.replacements_arrive = 0) ∧
        (∀ i rec1 rec2, r.records[i]? = some rec1 → r.records[i + 1]? = some rec2 →
          rec2.replacements_arrive = rec1.doa_units)) ∧
      (¬(inp.doa_replacement_mode = nextMonthLabel ∨
          inp.doa_replacement_mode = nextDeliveryLabel) →
        ∀ rec ∈ r.records, rec.replacements_arrive = 0) := by
  constructor
  · intro hmode
    obtain ⟨ds, ps, hds, hps, rfl⟩ := simulate_contract_eq_some.mp h
    have base : LagInv (initState inp) := by
      refine ⟨?_, ?_, rfl⟩
      · intro rec h0x
        simp [initState] at h0x
      · intro i rec1 rec2 h1 h2
        simp [initState] at h1
    obtain ⟨g0, gchain, _⟩ := runMonths_lagInv hmode (ds.zip ps) 1 (initState inp) base
    rw [finishRun_records]
    exact ⟨g0, gchain⟩
  · intro hmode
    exact simulate_records_mem h _ (replacements_zero_step hmode)

/-- C4 (counterexample): with the label "Never" — any string other than the
two recognised ones — period 1 computes 50 DOA units but period 2 receives 0
replacements, so the one-period lag does not hold regardless of the label. -/
theorem doa_mode_branch_cx :
    ((simulate_contract exModeNever).bind fun r => r.records[0]?).map
        PeriodRecord.doa_units = some 50 ∧
      ((simulate_contract exModeNever).bind fun r => r.records[1]?).map
        PeriodRecord.replacements_arrive = some 0 ∧
      (50 : ℤ) ≠ 0 := by
  refine ⟨?_, ?_, by norm_num⟩
  · norm_num [simulate_contract, runMonths, stepMonth, takePlan, pyInt, exModeNever,
      exShortfall, finishRun, initState, nextMonthLabel, nextDeliveryLabel]
  · norm_num [simulate_contract, runMonths, stepMonth, takePlan, pyInt, exModeNever,
      exShortfall, finishRun, initState, nextMonthLabel, nextDeliveryLabel]
    decide

/-- A run element found by position is a member. -/
theorem mem_of_getElem_eq {α : Type} {l : List α} {i : ℕ} {a : α}
    (h : l[i]? = some a) : a ∈ l := by
  obtain ⟨hlt, rfl⟩ := List.getElem?_eq_some.mp h
  exact List.getElem_mem hlt

/-- With zero demand and non-negative production, the loop sells nothing and
keeps the finished inventory non-negative. -/
theorem runMonths_sold_zero (inp : ContractInputs) (hd : inp.monthly_demand_units = 0) :
    ∀ (pairs : List (ℚ × ℚ)) (m : ℕ) (s : LoopState),
      (∀ q ∈ pairs.map Prod.snd, 0 ≤ q) → 0 ≤ s.final_inv →
      (runMonths inp m pairs s).total_units_sold = s.total_units_sold := by
  intro pairs
  induction pairs with
  | nil => intro m s _ _; simp [runMonths]
  | cons dp rest ih =>
    intro m s hq hfi
    obtain ⟨d, p⟩ := dp
    have hp : 0 ≤ p := hq p (by simp)
    have h1 : (stepMonth inp m d p s).total_units_sold = s.total_units_sold := by
      show s.total_units_sold + min (s.final_inv + p) inp.monthly_demand_units =
        s.total_units_sold
      rw [hd, min_eq_right (by linarith), add_zero]
    have h2 : 0 ≤ (stepMonth inp m d p s).final_inv := by
      show 0 ≤ s.final_inv + p - min (s.final_inv + p) inp.monthly_demand_units
      rw [hd, min_eq_right (by linarith)]
      linarith
    simp only [runMonths]
    rw [ih (m + 1) _ (fun q hq2 => hq q (by simp at hq2 ⊢; exact Or.inr hq2)) h2, h1]

/-- C5 (amended): the KPI summary has the fixed 20-key layout `kpiKeyList`,
which contains no margin-per-unit entry (no per-unit margin is computed at
all, so no division guard exists or is needed); moreover with zero demand and
non-negative finished-inventory/production inputs, `totalUnitsSold = 0`. -/
theorem kpi_keys_fixed_and_zero_sales {inp : ContractInputs} {r : SimResult}
    (h : simulate_contract inp = some r) :
    r.kpis.map Prod.fst = kpiKeyList ∧
      (inp.monthly_demand_units = 0 → 0 ≤ inp.initial_final_inventory →
        (∀ x ∈ inp.monthly_production_plan, 0 ≤ x) → r.total_units_sold = 0) := by
  obtain ⟨ds, ps, hds, hps, rfl⟩ := simulate_contract_eq_some.mp h
  refine ⟨rfl, ?_⟩
  intro hd hfi hp
  obtain ⟨hle2, hpsv⟩ := takePlan_eq_some.mp hps
  have hq : ∀ q ∈ ((ds.zip ps).map Prod.snd), 0 ≤ q := by
    intro q hq
    rw [List.map_snd_zip ds ps
      (by simp [takePlan_length hds, takePlan_length hps])] at hq
    exact hp q (List.mem_of_mem_take (hpsv ▸ hq))
  have hf0 : 0 ≤ (initState inp).final_inv := hfi
  show (runMonths inp 1 (ds.zip ps) (initState inp)).total_units_sold = 0
  rw [runMonths_sold_zero inp hd (ds.zip ps) 1 (initState inp) hq hf0]
  rfl

/-- C5 (counterexample): on a valid run the KPI dictionary's keys are exactly
the fixed 20-element `kpiKeyList`, which has no `marginPerUnit` (or any
per-unit margin) entry, so the KPI summary does not contain the claimed
guarded margin value. -/
theorem kpi_no_margin_cx :
    (simulate_contract exShortfall).map (fun r => r.kpis.map Prod.fst) =
      some kpiKeyList := rfl

/-- One loop step never reads the three service-term inputs. -/
theorem stepMonth_service_irrel (inp : ContractInputs) (p : ℤ) (c : Bool) (t : ℚ) :
    stepMonth (withServiceTerms inp p c t) = stepMonth inp := rfl

/-- The whole loop never reads the three service-term inputs. -/
theorem runMonths_service_irrel (inp : ContractInputs) (p : ℤ) (c : Bool) (t : ℚ) :
    ∀ (pairs : List (ℚ × ℚ)) (m : ℕ) (s : LoopState),
      runMonths (withServiceTerms inp p c t) m pairs s = runMonths inp m pairs s := by
  intro pairs
  induction pairs with
  | nil => intro m s; rfl
  | cons dp rest ih =>
    intro m s
    obtain ⟨d, pr⟩ := dp
    simp only [runMonths]
    rw [stepMonth_service_irrel, ih]

/-- Changing only the service terms changes nothing in the records, the
computed KPI entries, or the profit. -/
theorem finishRun_service_irrel (inp : ContractInputs) (p : ℤ) (c : Bool) (t : ℚ)
    (ds ps : List ℚ) :
    ((finishRun (withServiceTerms inp p c t) ds ps).records,
        computedKpis (finishRun (withServiceTerms inp p c t) ds ps),
        (finishRun (withServiceTerms inp p c t) ds ps).negotiation_profit) =
      ((finishRun inp ds ps).records, computedKpis (finishRun inp ds ps),
        (finishRun inp ds ps).negotiation_profit) := by
  have hrm := runMonths_service_irrel inp p c t
  have hinit : initState (withServiceTerms inp p c t) = initState inp := rfl
  simp only [finishRun, computedKpis, hinit, hrm]
  simp [withServiceTerms, passThroughKeys, paymentTermsKey, customizationKey, techSupportKey]

/-- C10 (confirmed): two runs whose inputs differ only in the three
service-term inputs (payment terms, customization, technical-support weeks)
produce identical period records, identical computed KPI entries and identical
profit; the three inputs show up only as verbatim pass-through KPI entries. -/
theorem service_terms_pass_through (inp : ContractInputs) (p : ℤ) (c : Bool) (t : ℚ) :
    ((simulate_contract (withServiceTerms inp p c t)).map
        fun r => (r.records, computedKpis r, r.negotiation_profit)) =
      ((simulate_contract inp).map
        fun r => (r.records, computedKpis r, r.negotiation_profit)) ∧
      (∀ r2, simulate_contract (withServiceTerms inp p c t) = some r2 →
        (paymentTermsKey, KpiValue.int p) ∈ r2.kpis ∧
          (customizationKey, KpiValue.bool c) ∈ r2.kpis ∧
          (techSupportKey, KpiValue.num t) ∈ r2.kpis) := by
  have htp1 : takePlan 12 (withServiceTerms inp p c t).monthly_oled_delivery_plan =
      takePlan 12 inp.monthly_oled_delivery_plan := rfl
  have htp2 : takePlan 12 (withServiceTerms inp p c t).monthly_production_plan =
      takePlan 12 inp.monthly_production_plan := rfl
  constructor
  · unfold simulate_contract
    rw [htp1, htp2]
    cases h1 : takePlan 12 inp.monthly_oled_delivery_plan with
    | none => rfl
    | some ds =>
      cases h2 : takePlan 12 inp.monthly_production_plan with
      | none => rfl
      | some ps =>
        show some _ = some _
        rw [Option.some_inj]
        exact finishRun_service_irrel inp p c t ds ps
  · intro r2 h2
    obtain ⟨ds, ps, hds, hps, rfl⟩ := simulate_contract_eq_some.mp h2
    refine ⟨?_, ?_, ?_⟩ <;> simp [finishRun, withServiceTerms]

/-! ## Concrete runs used by the witnesses -/

theorem rMain_spec : simulate_contract exMain = some rMain := by
  simp [rMain, runOf]

theorem rSvc_spec : simulate_contract exMainSvc = some rSvc := by
  simp [rSvc, runOf]

theorem rB_spec : simulate_contract exScenarioB = some rB := by
  simp [rB, runOf]

theorem rShort_spec : simulate_contract exShortfall = some rShort := by
  simp [rShort, runOf]

theorem rConst_spec : simulate_contract exConstInv = some rConst := by
  simp [rConst, runOf]

theorem rMain_rec0 : rMain.records[0]? = some recMain1 := by
  norm_num [rMain, runOf, simulate_contract, runMonths, stepMonth, takePlan, pyInt,
    finishRun, initState, exMain, nextMonthLabel, nextDeliveryLabel, recMain1]

theorem rMain_rec1 : rMain.records[1]? = some recMain2 := by
  norm_num [rMain, runOf, simulate_contract, runMonths, stepMonth, takePlan, pyInt,
    finishRun, initState, exMain, nextMonthLabel, nextDeliveryLabel, recMain2]

theorem rB_rec0 : rB.records[0]? = some recB1 := by
  norm_num [rB, runOf, simulate_contract, runMonths, stepMonth, takePlan, pyInt,
    finishRun, initState, exScenarioB, exShortfall, nextMonthLabel, nextDeliveryLabel, recB1]

/-- C1 witness: month 1 of the Scenario A run satisfies the unclamped balance,
with component inventory 500 → 395. -/
theorem component_inventory_end_unclamped_witness :
    recMain1 ∈ rMain.records ∧
      recMain1.comp_end_inv =
        recMain1.comp_start_inv +
          (recMain1.oleds_bought - (recMain1.doa_units : ℚ) +
            (recMain1.replacements_arrive : ℚ)) -
          recMain1.production ∧
      recMain1.comp_end_inv = 395 :=
  ⟨mem_of_getElem_eq rMain_rec0,
    component_inventory_end_unclamped rMain_spec recMain1 (mem_of_getElem_eq rMain_rec0),
    by norm_num [recMain1]⟩

/-- C3 witness: the cost decomposition on the Scenario A run, where 72000
OLEDs are purchased and the eco-packaging grant of 200000 applies. -/
theorem total_cost_decomposition_witness :
    rMain.total_costs =
        rMain.component_purchase_cost + rMain.total_prod_cost_excl_oled +
          rMain.total_transport_from_cda_cost + rMain.total_transport_to_cda_cost +
          rMain.total_insurance_cost +
          (rMain.inventory_comp_capital_cost + rMain.inventory_final_capital_cost) +
          exMain.neginfo_cost - rMain.ecolowrap_subsidy ∧
      rMain.negotiation_profit = rMain.total_sales_revenue - rMain.total_costs ∧
      rMain.total_oleds_purchased = 72000 ∧
      rMain.ecolowrap_subsidy = 200000 := by
  obtain ⟨a1, a2, a3, a4, a5, a6⟩ := total_cost_decomposition rMain_spec
  refine ⟨a1, a6, ?_, ?_⟩
  · rw [a4]
    norm_num [exMain]
  · rw [a5]
    norm_num [exMain]

/-- C4 witness: on the Scenario A run (mode "Next month"), month 1 receives 0
replacements and month 2 receives month 1's 105 DOA units. -/
theorem doa_lag_amended_witness :
    recMain1.replacements_arrive = 0 ∧
      recMain2.replacements_arrive = recMain1.doa_units ∧
      recMain2.replacements_arrive = 105 := by
  obtain ⟨hrec, _⟩ := doa_lag_amended rMain_spec
  obtain ⟨g0, gchain⟩ := hrec (Or.inl rfl)
  exact ⟨g0 recMain1 rMain_rec0, gchain 0 recMain1 recMain2 rMain_rec0 rMain_rec1,
    by norm_num [recMain2]⟩

/-- C5 witness: the shortfall run has the fixed margin-free KPI key list, and
its zero demand yields zero total units sold. -/
theorem kpi_keys_fixed_and_zero_sales_witness :
    rShort.kpis.map Prod.fst = kpiKeyList ∧ rShort.total_units_sold = 0 := by
  obtain ⟨h1, h2⟩ := kpi_keys_fixed_and_zero_sales rShort_spec
  exact ⟨h1, h2 rfl (by norm_num [exShortfall]) (by norm_num [exShortfall])⟩

/-- C6 witness: Scenario B month 1 — inventory 0, production 100, demand 50 —
sells 50 units and leaves 50 in stock. -/
theorem sales_cap_and_finished_inventory_witness :
    recB1 ∈ rB.records ∧
      (recB1.sales_units = min (recB1.final_start_inv + recB1.production) recB1.demand ∧
        recB1.sales_units ≤ recB1.final_start_inv + recB1.production ∧
        recB1.final_end_inv = recB1.final_start_inv + recB1.production - recB1.sales_units ∧
        0 ≤ recB1.final_end_inv) ∧
      recB1.sales_units = 50 ∧ recB1.final_end_inv = 50 :=
  ⟨mem_of_getElem_eq rB_rec0,
    sales_cap_and_finished_inventory rB_spec recB1 (mem_of_getElem_eq rB_rec0),
    by norm_num [recB1], by norm_num [recB1]⟩

/-- C7 witness: on the constant-inventory run the averages equal the constants
500 and 300, from 13 snapshots. -/
theorem average_inventory_13_snapshots_witness :
    rConst.avg_comp_inv = 500 ∧ rConst.avg_final_inv = 300 ∧
      rConst.inventory_comp_snapshots.length = 13 := by
  obtain ⟨a1, a2, a3, a4, a5, a6, a7, a8, a9, a10⟩ :=
    average_inventory_13_snapshots rConst_spec
  refine ⟨a9 500 ?_, a10 300 ?_, a1⟩ <;>
    norm_num [rConst, runOf, simulate_contract, runMonths, stepMonth, takePlan, pyInt,
      finishRun, initState, exConstInv, exShortfall, nextMonthLabel, nextDeliveryLabel]

/-- C8 witness: month 1 of Scenario A — 6000 delivered at DOA rate 0.0175
gives `floor(6000 × 0.0175) = 105` DOA units. -/
theorem doa_and_field_failure_floor_witness :
    recMain1 ∈ rMain.records ∧
      recMain1.doa_units = ⌊recMain1.oleds_bought * exMain.doa_rate⌋ ∧
      recMain1.doa_units = 105 := by
  have hmem := mem_of_getElem_eq rMain_rec0
  obtain ⟨h1, h2, h3, h4⟩ := doa_and_field_failure_floor rMain_spec recMain1 hmem
  exact ⟨hmem, h3 (by norm_num [recMain1, exMain]), by norm_num [recMain1]⟩

/-- C9 witness: month 2 of Scenario A — inbound transport charged on
6000 + 105 units at 13.1 each, i.e. 79975.5. -/
theorem period_cost_bases_witness :
    recMain2 ∈ rMain.records ∧
      (recMain2.transport_from_cda_cost =
          (recMain2.oleds_bought + (recMain2.replacements_arrive : ℚ)) *
            exMain.transport_cost_per_unit_from_cda ∧
        recMain2.transport_to_cda_cost =
          (recMain2.field_failures : ℚ) * exMain.transport_cost_per_unit_to_cda ∧
        recMain2.insurance_cost =
          ((recMain2.oleds_bought + (recMain2.replacements_arrive : ℚ)) +
              (recMain2.field_failures : ℚ)) *
            exMain.insurance_cost_per_unit) ∧
      recMain2.transport_from_cda_cost = 159951/2 :=
  ⟨mem_of_getElem_eq rMain_rec1,
    period_cost_bases rMain_spec recMain2 (mem_of_getElem_eq rMain_rec1),
    by norm_num [recMain2]⟩

/-- C10 witness: changing Scenario A's service terms to 30 days / no
customization / 7 weeks shows up verbatim in the pass-through KPI entries. -/
theorem service_terms_pass_through_witness :
    (paymentTermsKey, KpiValue.int 30) ∈ rSvc.kpis ∧
      (customizationKey, KpiValue.bool false) ∈ rSvc.kpis ∧
      (techSupportKey, KpiValue.num 7) ∈ rSvc.kpis :=
  (service_terms_pass_through exMain 30 false 7).2 rSvc rSvc_spec

end Dealmaker
